import Mathlib

/-!
Verification development for the Kaillera-Plus matchmaking coordinator
(`src/run.py`).  The Python program is shallowly embedded: Python `str`
becomes `List Char`, the module-level dictionaries (`kaillera_users`, the two
`ConnectionManager` instances) become association lists keyed by `Nat`, and
the mutually referencing `KailleraUser`/`KailleraGame` objects are broken
into an arena: a user's `game` field stores the id of a game held in a
`games` table (a game's id equals its owner's id, as in the source).
Discord-side effects (threads, views, direct messages, embeds) change no
coordinator state; where an operation's observable behaviour depends on them
(the readiness-summary message, thread membership) the relevant datum is
kept as explicit state (`GameInfoMessage.hasEmbeds` models
`message.embeds` being non-empty).  Fallible Python code (uncaught
`KeyError`/`ValueError`/`AttributeError`, raised `KailleraError`s) is
modelled with explicit error results.
-/

namespace KailleraPlus

/-- Python `str`, modelled character by character. -/
abbrev PyStr := List Char

/-- Python dict lookup `d.get(k)`: first binding of the key wins. -/
def lookup {α : Type} : List (Nat × α) → Nat → Option α
  | [], _ => none
  | (k, v) :: rest, key => if k = key then some v else lookup rest key

/-- Python dict write `d[k] = v`: replace the binding in place, else append. -/
def updateEntry {α : Type} : List (Nat × α) → Nat → α → List (Nat × α)
  | [], key, v => [(key, v)]
  | (k, w) :: rest, key, v =>
      if k = key then (k, v) :: rest else (k, w) :: updateEntry rest key v

/-- Python dict removal `d.pop(k)` / `del d[k]`: drop the key's binding. -/
def eraseEntry {α : Type} (l : List (Nat × α)) (key : Nat) : List (Nat × α) :=
  l.filter fun p => p.1 != key

/-- `MAX_PLAYERS = 4` (src/run.py line 22). -/
def MAX_PLAYERS : Nat := 4

/-- `class AuthState(Enum)` (src/run.py lines 41-43). -/
inductive AuthState
  | NOT_AUTH
  | AUTH_SUCCESS
deriving DecidableEq

/-- `class GameStatus(Enum)` (src/run.py lines 46-48). -/
inductive GameStatus
  | IDLE
  | PLAYING
deriving DecidableEq

/-- The Discord message carrying the readiness summary
(`KailleraGame.game_info_message`).  The only datum the coordinator reads
back is whether `message.embeds` is non-empty, i.e. whether the summary has
already been published; `message.edit(embed=...)` makes it non-empty. -/
structure GameInfoMessage where
  hasEmbeds : Bool
deriving DecidableEq

/-- `@dataclass KailleraGame` (src/run.py lines 51-62).  `players` holds
user ids (the arena encoding of the source's list of user references);
`thread` holds the Discord thread id when one was created;
`created_game_thread_view` / `create_game_interaction` are pure UI objects
with no coordinator-visible state and are not modelled. -/
structure KailleraGame where
  players : List Nat
  id : Nat
  owner : Nat
  rom_name : PyStr
  thread : Option Nat := none
  address : Option PyStr := none
  status : GameStatus := GameStatus.IDLE
  game_info_message : Option GameInfoMessage := none
deriving DecidableEq

/-- `@dataclass KailleraUser` (src/run.py lines 65-92).  The Discord profile
attributes (username, avatar, ...) are presentation-only and never read by
the coordinator logic under verification, so only `id` is kept; `game`
stores a game id into the arena (the source's object reference). -/
structure KailleraUser where
  id : Nat
  auth_state : AuthState := AuthState.NOT_AUTH
  game : Option Nat := none
  game_list : List PyStr := []
  ping : Option Int := none
  player_number : Option Int := none
  frame_delay : Option Int := none
deriving DecidableEq

/-- `class ConnectionManager` (src/run.py lines 95-112): identifier to live
websocket; websockets are opaque tokens, modelled as `Nat`. -/
structure ConnectionManager where
  active_connections : List (Nat × Nat) := []
deriving DecidableEq

/-- `ConnectionManager.connect` (lines 99-101): `accept` is transport-side;
the state effect registers the connection under the identifier. -/
def ConnectionManager.connect (m : ConnectionManager) (websocket : Nat)
    (identifier : Nat) : ConnectionManager :=
  { m with active_connections := updateEntry m.active_connections identifier websocket }

/-- `ConnectionManager.disconnect` (lines 103-105).  As in the source, the
`websocket` argument is accepted but never consulted: the entry for
`identifier` is popped whenever one is present. -/
def ConnectionManager.disconnect (m : ConnectionManager) (websocket : Nat)
    (identifier : Nat) : ConnectionManager :=
  if (lookup m.active_connections identifier).isSome then
    { m with active_connections := eraseEntry m.active_connections identifier }
  else m

/-- Global mutable state of the coordinator process: the two connection
registries and the session dictionary (src/run.py lines 254-256), plus the
arena giving identity to the `KailleraGame` objects. -/
structure St where
  authenticating_connection_manager : ConnectionManager := {}
  authenticated_connection_manager : ConnectionManager := {}
  kaillera_users : List (Nat × KailleraUser) := []
  games : List (Nat × KailleraGame) := []
deriving DecidableEq

/-- Outbound protocol frames and notifications sent by the coordinator. -/
inductive Frame
  | GAME_LIST_REQUEST
  | USER_ID (userId : Nat)
  | AUTH_SUCCESS
  | CREATE_GAME (rom : PyStr)
  | JOIN_GAME (address : Option PyStr)
  | ROM_NAME (rom : PyStr)
  | DM_DISCONNECTED
deriving DecidableEq

/-- Uncaught Python exceptions escaping the frame dispatcher. -/
inductive PErr
  | keyError
  | valueError
  | userNotInGame
deriving DecidableEq

/-- `KailleraError` reasons raised by the lobby command surface. -/
inductive CmdErr
  | mustAuthenticate
  | alreadyInGame
  | gameDoesNotExist
  | romNotOwned
  | gameAlreadyStarted
  | gameFull
  | errorFindingGame
  | invalidRomName
  | keyError
deriving DecidableEq

/-- Python `s.startswith(p)`. -/
def pyStartswith (s p : PyStr) : Bool := p.isPrefixOf s

/-- Decimal value of a digit string. -/
def digitsVal (ds : PyStr) : Nat :=
  ds.foldl (fun n c => 10 * n + (c.toNat - '0'.toNat)) 0

/-- Python `int(s)`: optional surrounding whitespace, optional sign, at
least one decimal digit; anything else raises `ValueError` (`none`). -/
def pyInt? (s : PyStr) : Option Int :=
  let t := ((s.dropWhile Char.isWhitespace).reverse.dropWhile Char.isWhitespace).reverse
  match t with
  | '+' :: ds =>
      if !ds.isEmpty && ds.all Char.isDigit then some (digitsVal ds : Int) else none
  | '-' :: ds =>
      if !ds.isEmpty && ds.all Char.isDigit then some (-(digitsVal ds : Int)) else none
  | ds =>
      if !ds.isEmpty && ds.all Char.isDigit then some (digitsVal ds : Int) else none

/-- Python `s.split(",")`; note `"".split(",") == [""]`. -/
def pySplitComma : PyStr → List PyStr
  | [] => [[]]
  | ',' :: rest => [] :: pySplitComma rest
  | c :: rest =>
    match pySplitComma rest with
    | [] => [[c]]
    | g :: gs => (c :: g) :: gs

def LOGOUT_TAG : PyStr := ['L', 'O', 'G', 'O', 'U', 'T']
def GAME_LIST_TAG : PyStr := ['G', 'A', 'M', 'E', ' ', 'L', 'I', 'S', 'T']
def SERVER_IP_TAG : PyStr := ['S', 'E', 'R', 'V', 'E', 'R', ' ', 'I', 'P']
def PLAYER_NUMBER_TAG : PyStr :=
  ['P', 'L', 'A', 'Y', 'E', 'R', ' ', 'N', 'U', 'M', 'B', 'E', 'R']
def FRAME_DELAY_TAG : PyStr := ['F', 'R', 'A', 'M', 'E', ' ', 'D', 'E', 'L', 'A', 'Y']
def USER_PING_TAG : PyStr := ['U', 'S', 'E', 'R', ' ', 'P', 'I', 'N', 'G']

/-- Whether every roster member of game `g` has both `ping` and
`frame_delay` set (`all(player.ping is not None and player.frame_delay is
not None for player in user.game.players)`, src/run.py line 286). -/
def allTelemetryReady (s : St) (g : KailleraGame) : Bool :=
  g.players.all fun pid =>
    match lookup s.kaillera_users pid with
    | some p => p.ping.isSome && p.frame_delay.isSome
    | none => false

/-- First half of `process_ws_data` (src/run.py lines 264-281): the
prefix-tag dispatch, in the source's `if/elif` order.  Each raising path
(`KailleraError("User not in a game!")`, `int(...)` raising `ValueError`)
raises before mutating anything, so errors carry no state. -/
def dispatchFrame (s : St) (websocket : Nat) (data : PyStr) (user_id : Nat)
    (user : KailleraUser) : Except PErr St :=
  if pyStartswith data LOGOUT_TAG then
    let m := s.authenticated_connection_manager.disconnect websocket user_id
    Except.ok { s with authenticated_connection_manager := m }
  else if pyStartswith data GAME_LIST_TAG then
    let u := { user with game_list := pySplitComma (data.drop 9) }
    Except.ok { s with kaillera_users := updateEntry s.kaillera_users user_id u }
  else if pyStartswith data SERVER_IP_TAG then
    match user.game with
    | some gid =>
      match lookup s.games gid with
      | some g =>
        let g' := { g with address := some (data.drop 9) }
        Except.ok { s with games := updateEntry s.games gid g' }
      | none => Except.error PErr.keyError
    | none => Except.error PErr.userNotInGame
  else if pyStartswith data PLAYER_NUMBER_TAG then
    match pyInt? (data.drop 13) with
    | some n =>
      let u := { user with player_number := some n }
      Except.ok { s with kaillera_users := updateEntry s.kaillera_users user_id u }
    | none => Except.error PErr.valueError
  else if pyStartswith data FRAME_DELAY_TAG then
    match pyInt? (data.drop 11) with
    | some n =>
      let u := { user with frame_delay := some n }
      Except.ok { s with kaillera_users := updateEntry s.kaillera_users user_id u }
    | none => Except.error PErr.valueError
  else if pyStartswith data USER_PING_TAG then
    match pyInt? (data.drop 9) with
    | some n =>
      let u := { user with ping := some n }
      Except.ok { s with kaillera_users := updateEntry s.kaillera_users user_id u }
    | none => Except.error PErr.valueError
  else
    Except.ok s

/-- Second half of `process_ws_data` (src/run.py lines 283-298): after any
update, publish the readiness summary onto the game-info message when the
sender is in a game, the message exists, every member's telemetry is
complete, and `not user.game.game_info_message.embeds`, i.e. a summary has
not already been published.  The returned `Bool` records whether the
summary was published by this call. -/
def publishSummary (s : St) (user_id : Nat) : St × Bool :=
  match lookup s.kaillera_users user_id with
  | none => (s, false)
  | some u =>
    match u.game with
    | none => (s, false)
    | some gid =>
      match lookup s.games gid with
      | none => (s, false)
      | some g =>
        match g.game_info_message with
        | none => (s, false)
        | some msg =>
          if allTelemetryReady s g && !msg.hasEmbeds then
            let g' := { g with game_info_message := some { hasEmbeds := true } }
            ({ s with games := updateEntry s.games gid g' }, true)
          else (s, false)

/-- `process_ws_data` (src/run.py lines 259-298).  `kaillera_users[user_id]`
raises `KeyError` when the session is gone. -/
def process_ws_data (s : St) (websocket : Nat) (data : PyStr) (user_id : Nat) :
    Except PErr (St × Bool) :=
  match lookup s.kaillera_users user_id with
  | none => Except.error PErr.keyError
  | some user =>
    match dispatchFrame s websocket data user_id user with
    | Except.error e => Except.error e
    | Except.ok s1 => Except.ok (publishSummary s1 user_id)

/-- The receive loop of `websocket_endpoint` (src/run.py lines 395-397):
process inbound frames one after another; an exception escaping
`process_ws_data` is not caught by the loop, so processing stops there and
the remaining frames are never seen. -/
def wsReceiveLoop : St → Nat → Nat → List PyStr → St × Option PErr
  | s, _, _, [] => (s, none)
  | s, websocket, user_id, data :: rest =>
    match process_ws_data s websocket data user_id with
    | Except.error e => (s, some e)
    | Except.ok (s', _) => wsReceiveLoop s' websocket user_id rest

/-- The `WebSocketDisconnect` handler of `websocket_endpoint` (src/run.py
lines 398-419): deregister the connection and pop the identity's session.
Thread deletion and view teardown are Discord-side effects; the handler
clears no other member's `game` reference and the game record itself
survives in the arena. -/
def wsDisconnectCleanup (s : St) (websocket : Nat) (user_id : Nat) : St :=
  { s with
    authenticated_connection_manager :=
      s.authenticated_connection_manager.disconnect websocket user_id,
    kaillera_users := eraseEntry s.kaillera_users user_id }

/-- `websocket_endpoint` (src/run.py lines 385-419) over a finite inbound
trace: unknown `user_id` returns before any side effect; otherwise the
connection is registered, a `GAME LIST` request is sent, the inbound frames
are processed, and — only when the loop ends by the client disconnecting
rather than by an uncaught exception — the disconnect handler runs. -/
def websocket_endpoint (s : St) (websocket : Nat) (user_id : Nat)
    (inbound : List PyStr) : St × List Frame × Option PErr :=
  match lookup s.kaillera_users user_id with
  | none => (s, [], none)
  | some _ =>
    let s1 := { s with authenticated_connection_manager :=
      s.authenticated_connection_manager.connect websocket user_id }
    match wsReceiveLoop s1 websocket user_id inbound with
    | (s2, some e) => (s2, [Frame.GAME_LIST_REQUEST], some e)
    | (s2, none) =>
      (wsDisconnectCleanup s2 websocket user_id,
       [Frame.GAME_LIST_REQUEST, Frame.DM_DISCONNECTED], none)

/-- Session creation by `discord_auth_callback` (src/run.py lines 323-353):
a fresh `KailleraUser` (dataclass defaults: `NOT_AUTH`, no game, empty
`game_list`) is inserted into `kaillera_users`. -/
def discord_auth_callback (s : St) (user_id : Nat) : St :=
  { s with kaillera_users := updateEntry s.kaillera_users user_id { id := user_id } }

/-- Update one game record in the arena. -/
def mapGame (s : St) (gid : Nat) (f : KailleraGame → KailleraGame) : St :=
  match lookup s.games gid with
  | some g => { s with games := updateEntry s.games gid (f g) }
  | none => s

/-- The `/creategame` slash command (src/run.py lines 482-531).  `inGuild`
distinguishes the thread-creating branch from the `PartialMessageable`
(DM-like) branch; `threadId` is the id Discord assigns to the new thread.
In both branches the game is created (and the author's `game` set) before
the author's authenticated websocket is looked up, so a missing connection
(`KeyError`) still leaves the lobby created. -/
def creategame (s : St) (author_id : Nat) (rom_name : PyStr) (inGuild : Bool)
    (threadId : Nat) : St × List Frame × Option CmdErr :=
  match lookup s.kaillera_users author_id with
  | none => (s, [], some CmdErr.mustAuthenticate)
  | some user =>
    if user.game.isSome then (s, [], some CmdErr.alreadyInGame)
    else if rom_name.isEmpty || !(user.game_list.contains rom_name) then
      (s, [], some CmdErr.invalidRomName)
    else
      let game_id := author_id
      let newGame : KailleraGame :=
        { players := [author_id], id := game_id, owner := author_id, rom_name := rom_name }
      let s1 := { s with
        games := updateEntry s.games game_id newGame,
        kaillera_users :=
          updateEntry s.kaillera_users author_id { user with game := some game_id } }
      if inGuild then
        let s2 := mapGame s1 game_id fun g => { g with thread := some threadId }
        match lookup s2.authenticated_connection_manager.active_connections author_id with
        | none => (s2, [], some CmdErr.keyError)
        | some _ => (s2, [Frame.CREATE_GAME rom_name], none)
      else
        match lookup s1.authenticated_connection_manager.active_connections author_id with
        | none => (s1, [], some CmdErr.keyError)
        | some _ => (s1, [Frame.CREATE_GAME rom_name], none)

/-- The Join Game button callback (src/run.py lines 133-159), validation
order as written.  Its success path only adds the joiner to the Discord
thread (the roster mutation is performed by the `on_thread_member_join`
hook), so the callback's coordinator-visible outcome is just the error, if
one was raised. -/
def join_game_button_callback (s : St) (creator_id : Nat) (joiner_id : Nat) :
    Option CmdErr :=
  let game_owner? := lookup s.kaillera_users creator_id
  match lookup s.kaillera_users joiner_id with
  | none => some CmdErr.mustAuthenticate
  | some user =>
    if user.game.isSome then some CmdErr.alreadyInGame
    else
      match game_owner? with
      | none => some CmdErr.gameDoesNotExist
      | some owner =>
        match owner.game with
        | none => some CmdErr.gameDoesNotExist
        | some gid =>
          match lookup s.games gid with
          | none => some CmdErr.gameDoesNotExist
          | some g =>
            if !(user.game_list.contains g.rom_name) then some CmdErr.romNotOwned
            else if !(g.status == GameStatus.IDLE) then some CmdErr.gameAlreadyStarted
            else if g.players.length == MAX_PLAYERS then some CmdErr.gameFull
            else
              match g.thread with
              | none => some CmdErr.errorFindingGame
              | some _ => none

/-- The loop of `on_thread_member_join` (src/run.py lines 699-705): first
registered user owning a game whose thread is the joined thread. -/
def findGameOwnerByThread (s : St) (thread_id : Nat) : Option (Nat × KailleraGame) :=
  s.kaillera_users.findSome? fun p =>
    match p.2.game with
    | some gid =>
      match lookup s.games gid with
      | some g => if g.thread = some thread_id then some (gid, g) else none
      | none => none
    | none => none

/-- `on_thread_member_join` (src/run.py lines 688-725).
`allThreadMembersRegistered` reports the Discord-side fact
`all(m.id in kaillera_users for m in thread.fetch_members())`.  Note the
capacity test is `len(game_owner.game.players) > MAX_PLAYERS` — a roster
already holding exactly `MAX_PLAYERS` members passes it. -/
def on_thread_member_join (s : St) (thread_id : Nat) (member_id : Nat)
    (allThreadMembersRegistered : Bool) : St × List Frame × Option PErr :=
  if (lookup s.kaillera_users member_id).isNone && allThreadMembersRegistered then
    (s, [], none)
  else
    match findGameOwnerByThread s thread_id with
    | none => (s, [], none)
    | some (gid, g) =>
      match lookup s.kaillera_users member_id with
      | none => (s, [], some PErr.keyError)
      | some user =>
        if user.game.isSome then (s, [], none)
        else if !(g.status == GameStatus.IDLE)
            || !(user.game_list.contains g.rom_name)
            || decide (g.players.length > MAX_PLAYERS) then
          (s, [], none)
        else if g.players.contains member_id then (s, [], none)
        else
          match lookup s.authenticated_connection_manager.active_connections member_id with
          | none => (s, [], some PErr.keyError)
          | some _ =>
            let s1 := { s with
              games := updateEntry s.games gid { g with players := g.players ++ [member_id] },
              kaillera_users :=
                updateEntry s.kaillera_users member_id { user with game := some gid } }
            (s1, [Frame.JOIN_GAME g.address, Frame.ROM_NAME g.rom_name], none)

/-- Observation: a game's roster, owner, status and ROM. -/
def gameSummary (s : St) (gid : Nat) : Option (List Nat × Nat × GameStatus × PyStr) :=
  (lookup s.games gid).map fun g => (g.players, g.owner, g.status, g.rom_name)

/-- Observation: a game's roster length. -/
def rosterLength (s : St) (gid : Nat) : Option Nat :=
  (lookup s.games gid).map fun g => g.players.length

/-- Observation: a user's current-lobby reference. -/
def userLobby (s : St) (user_id : Nat) : Option (Option Nat) :=
  (lookup s.kaillera_users user_id).map fun u => u.game

/-- Observation: a user's ping telemetry. -/
def userPing (s : St) (user_id : Nat) : Option (Option Int) :=
  (lookup s.kaillera_users user_id).map fun u => u.ping

/-- Observation: a user's authentication state. -/
def userAuthState (s : St) (user_id : Nat) : Option AuthState :=
  (lookup s.kaillera_users user_id).map fun u => u.auth_state

/-- Whether a `process_ws_data` run published the readiness summary. -/
def publishedFlag : Except PErr (St × Bool) → Bool
  | Except.ok (_, b) => b
  | Except.error _ => false

/-- An authenticated user who is a member of game 1 and owns ROM `R`. -/
def memberOfGame1 (i : Nat) : KailleraUser :=
  { id := i, auth_state := AuthState.AUTH_SUCCESS, game := some 1, game_list := [['R']] }

/-- Game 1: owned by user 1, roster already at the full `MAX_PLAYERS`. -/
def fullGame1 : KailleraGame :=
  { players := [1, 2, 3, 4], id := 1, owner := 1, rom_name := ['R'], thread := some 9 }

/-- An authenticated user in no game who owns ROM `R`. -/
def romOwner (i : Nat) : KailleraUser :=
  { id := i, auth_state := AuthState.AUTH_SUCCESS, game_list := [['R']] }

/-- Four members filling game 1 plus a fifth authenticated user (owning the
ROM, in no game) whose websocket is registered. -/
def overCapSt : St :=
  { kaillera_users := [(1, memberOfGame1 1), (2, memberOfGame1 2), (3, memberOfGame1 3),
      (4, memberOfGame1 4), (5, romOwner 5)],
    games := [(1, fullGame1)],
    authenticated_connection_manager := ⟨[(5, 50)]⟩ }

/-- Game 1 with just owner 1 and member 2. -/
def twoPlayerGame1 : KailleraGame :=
  { players := [1, 2], id := 1, owner := 1, rom_name := ['R'], thread := some 9 }

/-- Owner 1 and member 2 of game 1, both connected. -/
def ownerMemberSt : St :=
  { kaillera_users := [(1, memberOfGame1 1), (2, memberOfGame1 2)],
    games := [(1, twoPlayerGame1)],
    authenticated_connection_manager := ⟨[(1, 10), (2, 20)]⟩ }

/-- A lone connected session with no telemetry yet. -/
def loneUserSt : St :=
  { kaillera_users := [(1, { id := 1, auth_state := AuthState.AUTH_SUCCESS })] }

/-- A member of game 1 with complete telemetry. -/
def readyMember (i : Nat) : KailleraUser :=
  { id := i, auth_state := AuthState.AUTH_SUCCESS, game := some 1,
    game_list := [['R']], ping := some 100, frame_delay := some 20 }

/-- Two-player game 1 whose readiness summary is already published. -/
def publishedGame1 : KailleraGame :=
  { twoPlayerGame1 with game_info_message := some { hasEmbeds := true } }

/-- Two-player game 1, telemetry complete, readiness summary already
published on the game-info message. -/
def publishedSummarySt : St :=
  { kaillera_users := [(1, readyMember 1), (2, readyMember 2)],
    games := [(1, publishedGame1)] }

/-- An authenticated user in no game whose catalog holds only ROM `X`. -/
def otherRomOwner (i : Nat) : KailleraUser :=
  { id := i, auth_state := AuthState.AUTH_SUCCESS, game_list := [['X']] }

/-- Full game 1 plus a joiner (user 6) who does not own its ROM. -/
def fullAndRomlessSt : St :=
  { kaillera_users := [(1, memberOfGame1 1), (2, memberOfGame1 2), (3, memberOfGame1 3),
      (4, memberOfGame1 4), (6, otherRomOwner 6)],
    games := [(1, fullGame1)] }

/-- A session that is still `NOT_AUTH` yet holds ROM `R` in its catalog. -/
def pendingCreator : KailleraUser := { id := 7, game_list := [['R']] }

/-- A still-`NOT_AUTH` session with ROM `R` catalogued and a registered
websocket — the state reached by `discord_auth_callback` followed by a
`/ws/7` connection and a `GAME LIST` frame, all of which are possible
before `/auth` runs because `websocket_endpoint` and `process_ws_data`
check only session presence. -/
def notAuthCreatorSt : St :=
  { kaillera_users := [(7, pendingCreator)],
    authenticated_connection_manager := ⟨[(7, 70)]⟩ }

end KailleraPlus

namespace KailleraPlus

/-! Association-list and string-prefix lemmas. -/

lemma lookup_updateEntry_self {α : Type} (l : List (Nat × α)) (k : Nat) (v : α) :
    lookup (updateEntry l k v) k = some v := by
  induction l with
  | nil => simp [updateEntry, lookup]
  | cons p rest ih =>
    by_cases h : p.1 = k <;> simp [updateEntry, lookup, h, ih]

lemma lookup_updateEntry_ne {α : Type} (l : List (Nat × α)) (k k' : Nat) (v : α)
    (h : k ≠ k') : lookup (updateEntry l k v) k' = lookup l k' := by
  induction l with
  | nil => simp [updateEntry, lookup, h]
  | cons p rest ih =>
    by_cases hp : p.1 = k <;> by_cases hq : p.1 = k' <;>
      simp_all [updateEntry, lookup]

lemma lookup_eraseEntry_self {α : Type} (l : List (Nat × α)) (k : Nat) :
    lookup (eraseEntry l k) k = none := by
  induction l with
  | nil => rfl
  | cons p rest ih =>
    by_cases h : p.1 = k <;>
      simpa [eraseEntry, List.filter_cons, h, lookup] using ih

lemma isPrefixOf_append_self (p s : PyStr) : p.isPrefixOf (p ++ s) = true := by
  induction p with
  | nil => cases s <;> rfl
  | cons a as ih => simp [List.isPrefixOf, ih]

/-- The empty coordinator state. -/
def emptySt : St := {}

/-- Claim C1: a lobby roster would never exceed the fixed capacity of 4 and
a join at capacity would fail with a capacity error leaving the roster
unchanged.  The code violates this: with game 1 already holding exactly
`MAX_PLAYERS` members, the thread-member-join hook's capacity test
`len(players) > MAX_PLAYERS` still passes, so user 5 is appended and the
roster reaches 5 without any error. -/
theorem capacity_exceeded_via_thread_member_join :
    rosterLength overCapSt 1 = some MAX_PLAYERS
    ∧ (on_thread_member_join overCapSt 9 5 true).2.2 = none
    ∧ rosterLength (on_thread_member_join overCapSt 9 5 true).1 1 = some (MAX_PLAYERS + 1)
    ∧ userLobby (on_thread_member_join overCapSt 9 5 true).1 5 = some (some 1) := by
  decide

/-- Claim C2: losing the owner's transport connection would destroy the
lobby and clear every remaining member's current-lobby reference.  The code
violates this: after owner 1's websocket disconnects, the reconciliation
path pops the owner's session but member 2's `game` still references the
destroyed lobby. -/
theorem owner_disconnect_orphans_member :
    (websocket_endpoint ownerMemberSt 10 1 []).2.2 = none
    ∧ lookup (websocket_endpoint ownerMemberSt 10 1 []).1.kaillera_users 1 = none
    ∧ userLobby (websocket_endpoint ownerMemberSt 10 1 []).1 2 = some (some 1) := by
  decide

/-- Claim C9 as stated is false: `disconnect(id, connection)` does not
check that the registered connection matches.  Here identifier 1 is
registered to websocket 10, yet a disconnect naming websocket 99 still
removes the entry. -/
theorem disconnect_removes_mismatched_connection :
    lookup (ConnectionManager.disconnect ⟨[(1, 10)]⟩ 99 1).active_connections 1 = none
    ∧ lookup (ConnectionManager.mk [(1, 10)]).active_connections 1 = some 10
    ∧ (10 : Nat) ≠ 99 := by
  decide

/-- Claim C9 (amended): `disconnect(id, connection)` pops the entry for
`id` whenever one is present, regardless of which connection is passed —
the `websocket` argument is ignored — and is a no-op when `id` has no
entry. -/
theorem disconnect_pops_entry_ignoring_websocket (m : ConnectionManager)
    (ws ws' ident : Nat) :
    ConnectionManager.disconnect m ws ident = ConnectionManager.disconnect m ws' ident
    ∧ lookup (ConnectionManager.disconnect m ws ident).active_connections ident = none
    ∧ (lookup m.active_connections ident = none →
        ConnectionManager.disconnect m ws ident = m) := by
  refine ⟨rfl, ?_, ?_⟩
  · unfold ConnectionManager.disconnect
    by_cases h : (lookup m.active_connections ident).isSome
    · simp [h, lookup_eraseEntry_self]
    · simp only [h, Bool.false_eq_true, if_false]
      exact Option.not_isSome_iff_eq_none.mp h
  · intro h
    unfold ConnectionManager.disconnect
    simp [h]

/-- Witness for the amended C9 theorem at a concrete registry. -/
theorem disconnect_pops_entry_ignoring_websocket_witness :
    lookup (ConnectionManager.mk [(2, 30)]).active_connections 1 = none
    ∧ ConnectionManager.disconnect (ConnectionManager.mk [(2, 30)]) 99 1
        = ConnectionManager.mk [(2, 30)] :=
  ⟨by decide,
   (disconnect_pops_entry_ignoring_websocket (ConnectionManager.mk [(2, 30)]) 99 99 1).2.2
     (by decide)⟩

/-- Claim C10: opening the authenticated websocket endpoint with a user id
that has no session returns before any side effect: the state is
untouched, no `GAME LIST` request (or anything else) is sent, and no
inbound frame is processed. -/
theorem ws_unknown_user_no_side_effects (s : St) (websocket user_id : Nat)
    (inbound : List PyStr) (h : lookup s.kaillera_users user_id = none) :
    websocket_endpoint s websocket user_id inbound = (s, [], none) := by
  unfold websocket_endpoint
  simp [h]

/-- Witness for C10: the empty state with an inbound frame waiting. -/
theorem ws_unknown_user_no_side_effects_witness :
    lookup emptySt.kaillera_users 3 = none
    ∧ websocket_endpoint emptySt 10 3 [USER_PING_TAG ++ ['7']] = (emptySt, [], none) :=
  ⟨by decide, ws_unknown_user_no_side_effects emptySt 10 3 [USER_PING_TAG ++ ['7']] (by decide)⟩

lemma dispatchFrame_preserves_refs (s : St) (ws : Nat) (data : PyStr) (uid : Nat)
    (u : KailleraUser) (gid : Nat) (g : KailleraGame)
    (hu : lookup s.kaillera_users uid = some u)
    (hug : u.game = some gid) (hg : lookup s.games gid = some g) (s1 : St)
    (h : dispatchFrame s ws data uid u = Except.ok s1) :
    ∃ u1 g1, lookup s1.kaillera_users uid = some u1 ∧ u1.game = some gid ∧
      lookup s1.games gid = some g1 ∧ g1.game_info_message = g.game_info_message := by
  unfold dispatchFrame at h
  split at h
  · cases h
    exact ⟨u, g, hu, hug, hg, rfl⟩
  · split at h
    · cases h
      refine ⟨_, g, lookup_updateEntry_self _ _ _, hug, hg, rfl⟩
    · split at h
      · simp only [hug, hg] at h
        cases h
        exact ⟨u, _, hu, hug, lookup_updateEntry_self _ _ _, rfl⟩
      · split at h
        · cases hp : pyInt? (data.drop 13) with
          | none => rw [hp] at h; cases h
          | some n =>
            rw [hp] at h; cases h
            exact ⟨_, g, lookup_updateEntry_self _ _ _, hug, hg, rfl⟩
        · split at h
          · cases hp : pyInt? (data.drop 11) with
            | none => rw [hp] at h; cases h
            | some n =>
              rw [hp] at h; cases h
              exact ⟨_, g, lookup_updateEntry_self _ _ _, hug, hg, rfl⟩
          · split at h
            · cases hp : pyInt? (data.drop 9) with
              | none => rw [hp] at h; cases h
              | some n =>
                rw [hp] at h; cases h
                exact ⟨_, g, lookup_updateEntry_self _ _ _, hug, hg, rfl⟩
            · cases h
              exact ⟨u, g, hu, hug, hg, rfl⟩

/-- Claim C5: once the readiness summary of a lobby has been published, a
further inbound frame from a member — telemetry or otherwise — never
publishes a second one: the `not ...embeds` guard fails while the frame
leaves the member's lobby reference and the game's summary message in
place. -/
theorem summary_not_republished (s : St) (websocket : Nat) (data : PyStr)
    (uid gid : Nat) (u : KailleraUser) (g : KailleraGame) (m : GameInfoMessage)
    (hu : lookup s.kaillera_users uid = some u) (hug : u.game = some gid)
    (hg : lookup s.games gid = some g) (hm : g.game_info_message = some m)
    (hpub : m.hasEmbeds = true) :
    publishedFlag (process_ws_data s websocket data uid) = false := by
  unfold process_ws_data
  simp only [hu]
  cases hdisp : dispatchFrame s websocket data uid u with
  | error e => simp [publishedFlag]
  | ok s1 =>
    obtain ⟨u1, g1, h1, h2, h3, h4⟩ :=
      dispatchFrame_preserves_refs s websocket data uid u gid g hu hug hg s1 hdisp
    have hok : publishedFlag (Except.ok (publishSummary s1 uid))
        = (publishSummary s1 uid).2 := by
      cases hps : publishSummary s1 uid with
      | mk a b => rfl
    simp only []
    rw [hok]
    unfold publishSummary
    simp only [h1, h2, h3, h4, hm]
    simp [hpub]

/-- Witness for C5: a two-player lobby whose summary is already published
processes a fresh `USER PING105` from member 1 without republishing. -/
theorem summary_not_republished_witness :
    lookup publishedSummarySt.kaillera_users 1 = some (readyMember 1)
    ∧ (readyMember 1).game = some 1
    ∧ lookup publishedSummarySt.games 1 = some publishedGame1
    ∧ publishedGame1.game_info_message = some { hasEmbeds := true }
    ∧ publishedFlag (process_ws_data publishedSummarySt 10
        (USER_PING_TAG ++ ['1', '0', '5']) 1) = false :=
  ⟨by decide, by decide, by decide, by decide,
   summary_not_republished publishedSummarySt 10 (USER_PING_TAG ++ ['1', '0', '5'])
     1 1 (readyMember 1) publishedGame1 { hasEmbeds := true }
     (by decide) (by decide) (by decide) (by decide) rfl⟩

/-- Claim C6 as stated is false: after the malformed `USER PINGabc` the
`ValueError` escapes the dispatcher uncaught, the endpoint loop ends with
the exception (the connection is torn down without the disconnect handler
running) and the following well-formed `USER PING5` is never processed —
the user's ping stays unset instead of becoming 5. -/
theorem parse_failure_terminates_connection_loop :
    (websocket_endpoint loneUserSt 10 1
        [USER_PING_TAG ++ ['a', 'b', 'c'], USER_PING_TAG ++ ['5']]).2.2
      = some PErr.valueError
    ∧ userPing (websocket_endpoint loneUserSt 10 1
        [USER_PING_TAG ++ ['a', 'b', 'c'], USER_PING_TAG ++ ['5']]).1 1 = some none
    ∧ ¬ (userPing (websocket_endpoint loneUserSt 10 1
        [USER_PING_TAG ++ ['a', 'b', 'c'], USER_PING_TAG ++ ['5']]).1 1
          = some (some 5)) := by
  decide

lemma process_player_number_parse_failure (s : St) (ws uid : Nat) (u : KailleraUser)
    (suffix : PyStr)
    (hu : lookup s.kaillera_users uid = some u) (hbad : pyInt? suffix = none) :
    process_ws_data s ws (PLAYER_NUMBER_TAG ++ suffix) uid = Except.error PErr.valueError := by
  have t1 : pyStartswith (PLAYER_NUMBER_TAG ++ suffix) LOGOUT_TAG = false := rfl
  have t2 : pyStartswith (PLAYER_NUMBER_TAG ++ suffix) GAME_LIST_TAG = false := rfl
  have t3 : pyStartswith (PLAYER_NUMBER_TAG ++ suffix) SERVER_IP_TAG = false := rfl
  have t4 : pyStartswith (PLAYER_NUMBER_TAG ++ suffix) PLAYER_NUMBER_TAG = true := by
    simp [pyStartswith, isPrefixOf_append_self]
  have td : (PLAYER_NUMBER_TAG ++ suffix).drop 13 = suffix := rfl
  unfold process_ws_data dispatchFrame
  simp only [hu, t1, t2, t3, t4, td, hbad]
  simp

lemma process_frame_delay_parse_failure (s : St) (ws uid : Nat) (u : KailleraUser)
    (suffix : PyStr)
    (hu : lookup s.kaillera_users uid = some u) (hbad : pyInt? suffix = none) :
    process_ws_data s ws (FRAME_DELAY_TAG ++ suffix) uid = Except.error PErr.valueError := by
  have t1 : pyStartswith (FRAME_DELAY_TAG ++ suffix) LOGOUT_TAG = false := rfl
  have t2 : pyStartswith (FRAME_DELAY_TAG ++ suffix) GAME_LIST_TAG = false := rfl
  have t3 : pyStartswith (FRAME_DELAY_TAG ++ suffix) SERVER_IP_TAG = false := rfl
  have t4 : pyStartswith (FRAME_DELAY_TAG ++ suffix) PLAYER_NUMBER_TAG = false := rfl
  have t5 : pyStartswith (FRAME_DELAY_TAG ++ suffix) FRAME_DELAY_TAG = true := by
    simp [pyStartswith, isPrefixOf_append_self]
  have td : (FRAME_DELAY_TAG ++ suffix).drop 11 = suffix := rfl
  unfold process_ws_data dispatchFrame
  simp only [hu, t1, t2, t3, t4, t5, td, hbad]
  simp

lemma process_user_ping_parse_failure (s : St) (ws uid : Nat) (u : KailleraUser)
    (suffix : PyStr)
    (hu : lookup s.kaillera_users uid = some u) (hbad : pyInt? suffix = none) :
    process_ws_data s ws (USER_PING_TAG ++ suffix) uid = Except.error PErr.valueError := by
  have t1 : pyStartswith (USER_PING_TAG ++ suffix) LOGOUT_TAG = false := rfl
  have t2 : pyStartswith (USER_PING_TAG ++ suffix) GAME_LIST_TAG = false := rfl
  have t3 : pyStartswith (USER_PING_TAG ++ suffix) SERVER_IP_TAG = false := rfl
  have t4 : pyStartswith (USER_PING_TAG ++ suffix) PLAYER_NUMBER_TAG = false := rfl
  have t5 : pyStartswith (USER_PING_TAG ++ suffix) FRAME_DELAY_TAG = false := rfl
  have t6 : pyStartswith (USER_PING_TAG ++ suffix) USER_PING_TAG = true := by
    simp [pyStartswith, isPrefixOf_append_self]
  have td : (USER_PING_TAG ++ suffix).drop 9 = suffix := rfl
  unfold process_ws_data dispatchFrame
  simp only [hu, t1, t2, t3, t4, t5, t6, td, hbad]
  simp

/-- Claim C6 (amended): a `PLAYER NUMBER`/`FRAME DELAY`/`USER PING` frame
whose remainder is not a parseable integer leaves the telemetry field — and
all other state — unchanged, but the parse failure is an uncaught exception
rather than a handled protocol error: the receive loop ends there, so the
remaining inbound frames are never processed and the connection is
terminated without the disconnect cleanup running. -/
theorem telemetry_parse_failure_rejects_frame_and_stops (s : St) (ws uid : Nat)
    (u : KailleraUser) (suffix : PyStr) (rest : List PyStr)
    (hu : lookup s.kaillera_users uid = some u) (hbad : pyInt? suffix = none) :
    wsReceiveLoop s ws uid ((PLAYER_NUMBER_TAG ++ suffix) :: rest)
        = (s, some PErr.valueError)
    ∧ wsReceiveLoop s ws uid ((FRAME_DELAY_TAG ++ suffix) :: rest)
        = (s, some PErr.valueError)
    ∧ wsReceiveLoop s ws uid ((USER_PING_TAG ++ suffix) :: rest)
        = (s, some PErr.valueError) := by
  refine ⟨?_, ?_, ?_⟩
  · simp [wsReceiveLoop, process_player_number_parse_failure s ws uid u suffix hu hbad]
  · simp [wsReceiveLoop, process_frame_delay_parse_failure s ws uid u suffix hu hbad]
  · simp [wsReceiveLoop, process_user_ping_parse_failure s ws uid u suffix hu hbad]

/-- Witness for the amended C6 theorem: the malformed remainder `abc`
stops the loop on each of the three telemetry tags, with a well-formed
frame still queued behind it. -/
theorem telemetry_parse_failure_rejects_frame_and_stops_witness :
    lookup loneUserSt.kaillera_users 1
      = some { id := 1, auth_state := AuthState.AUTH_SUCCESS }
    ∧ pyInt? ['a', 'b', 'c'] = none
    ∧ wsReceiveLoop loneUserSt 10 1
        [PLAYER_NUMBER_TAG ++ ['a', 'b', 'c'], USER_PING_TAG ++ ['5']]
      = (loneUserSt, some PErr.valueError)
    ∧ wsReceiveLoop loneUserSt 10 1
        [FRAME_DELAY_TAG ++ ['a', 'b', 'c'], USER_PING_TAG ++ ['5']]
      = (loneUserSt, some PErr.valueError)
    ∧ wsReceiveLoop loneUserSt 10 1
        [USER_PING_TAG ++ ['a', 'b', 'c'], USER_PING_TAG ++ ['5']]
      = (loneUserSt, some PErr.valueError) := by
  have h := telemetry_parse_failure_rejects_frame_and_stops loneUserSt 10 1
    { id := 1, auth_state := AuthState.AUTH_SUCCESS } ['a', 'b', 'c']
    [USER_PING_TAG ++ ['5']] (by decide) (by decide)
  exact ⟨by decide, by decide, h.1, h.2.1, h.2.2⟩

/-- Claim C7 as stated is false: with game 1 at full capacity and joiner 6
not owning its ROM, the join button reports the content-catalog error, not
the capacity error the claimed check order would produce. -/
theorem full_game_reports_rom_error_first :
    rosterLength fullAndRomlessSt 1 = some MAX_PLAYERS
    ∧ (otherRomOwner 6).game_list.contains fullGame1.rom_name = false
    ∧ join_game_button_callback fullAndRomlessSt 1 6 = some CmdErr.romNotOwned
    ∧ CmdErr.romNotOwned ≠ CmdErr.gameFull := by
  decide

/-- Claim C7 (amended): the join button's checks run in the fixed order
authentication, already-in-a-lobby, lobby existence, content catalog,
lobby-started, capacity — so whenever the joiner lacks the lobby's ROM the
content-catalog error is reported, regardless of the lobby's status or how
full it is (and the `/joingame` slash command checks capacity nowhere,
deferring the roster mutation to the thread-member-join hook). -/
theorem join_button_rom_check_precedes_capacity (s : St) (creator joiner : Nat)
    (u ow : KailleraUser) (gid : Nat) (g : KailleraGame)
    (hj : lookup s.kaillera_users joiner = some u) (hjg : u.game = none)
    (hc : lookup s.kaillera_users creator = some ow) (hog : ow.game = some gid)
    (hg : lookup s.games gid = some g)
    (hrom : u.game_list.contains g.rom_name = false) :
    join_game_button_callback s creator joiner = some CmdErr.romNotOwned := by
  unfold join_game_button_callback
  simp only [hj, hjg, hc, hog, hg, hrom]
  simp

/-- Witness for the amended C7 theorem at the full-lobby state. -/
theorem join_button_rom_check_precedes_capacity_witness :
    lookup fullAndRomlessSt.kaillera_users 6 = some (otherRomOwner 6)
    ∧ (otherRomOwner 6).game = none
    ∧ lookup fullAndRomlessSt.kaillera_users 1 = some (memberOfGame1 1)
    ∧ (memberOfGame1 1).game = some 1
    ∧ lookup fullAndRomlessSt.games 1 = some fullGame1
    ∧ (otherRomOwner 6).game_list.contains fullGame1.rom_name = false
    ∧ join_game_button_callback fullAndRomlessSt 1 6 = some CmdErr.romNotOwned :=
  ⟨by decide, by decide, by decide, by decide, by decide, by decide,
   join_button_rom_check_precedes_capacity fullAndRomlessSt 1 6 (otherRomOwner 6)
     (memberOfGame1 1) 1 fullGame1 (by decide) (by decide) (by decide) (by decide)
     (by decide) (by decide)⟩

/-- Claim C8 as stated is false: identity 7's session is still `NOT_AUTH`
(its pairing was never confirmed), yet `/creategame` succeeds and creates
the lobby, because the command checks only that a session record exists. -/
theorem unauthenticated_session_creates_lobby :
    userAuthState notAuthCreatorSt 7 = some AuthState.NOT_AUTH
    ∧ (creategame notAuthCreatorSt 7 ['R'] false 0).2.2 = none
    ∧ gameSummary (creategame notAuthCreatorSt 7 ['R'] false 0).1 7
        = some ([7], 7, GameStatus.IDLE, ['R'])
    ∧ (creategame notAuthCreatorSt 7 ['R'] false 0).2.1 = [Frame.CREATE_GAME ['R']] := by
  decide

/-- Claim C8 (amended): `/creategame` fails with a validation error when
the caller has no session record (not: when its auth state is
unauthenticated), when it already belongs to a lobby, or when the ROM is
empty or absent from its catalog; otherwise it creates a lobby whose
roster is exactly the caller, owned by the caller, in state `IDLE`, and
sets the caller's current-lobby reference to it. -/
theorem creategame_requires_session_and_creates (s : St) (uid : Nat) (rom : PyStr)
    (inGuild : Bool) (tid : Nat) :
    (lookup s.kaillera_users uid = none →
      creategame s uid rom inGuild tid = (s, [], some CmdErr.mustAuthenticate))
    ∧ (∀ u, lookup s.kaillera_users uid = some u → u.game.isSome = true →
      creategame s uid rom inGuild tid = (s, [], some CmdErr.alreadyInGame))
    ∧ (∀ u, lookup s.kaillera_users uid = some u → u.game = none →
      (rom.isEmpty || !(u.game_list.contains rom)) = true →
      creategame s uid rom inGuild tid = (s, [], some CmdErr.invalidRomName))
    ∧ (∀ u, lookup s.kaillera_users uid = some u → u.game = none →
      (rom.isEmpty || !(u.game_list.contains rom)) = false →
      gameSummary (creategame s uid rom inGuild tid).1 uid
          = some ([uid], uid, GameStatus.IDLE, rom)
      ∧ userLobby (creategame s uid rom inGuild tid).1 uid = some (some uid)) := by
  refine ⟨?_, ?_, ?_, ?_⟩
  · intro h
    unfold creategame
    simp [h]
  · intro u hu hg
    unfold creategame
    simp [hu, hg]
  · intro u hu hg hrom
    unfold creategame
    simp only [hu, hg, hrom]
    simp [hg]
  · intro u hu hg hrom
    unfold creategame
    simp only [hu, hg, hrom]
    cases inGuild with
    | false =>
      simp only [Bool.false_eq_true, if_false]
      cases hL : lookup s.authenticated_connection_manager.active_connections uid with
      | none =>
        simp only [hL]
        constructor
        · simp [gameSummary, lookup_updateEntry_self, hg]
        · simp [userLobby, lookup_updateEntry_self, hg]
      | some w =>
        simp only [hL]
        constructor
        · simp [gameSummary, lookup_updateEntry_self, hg]
        · simp [userLobby, lookup_updateEntry_self, hg]
    | true =>
      simp only [if_true]
      unfold mapGame
      simp only [lookup_updateEntry_self]
      cases hL : lookup s.authenticated_connection_manager.active_connections uid with
      | none =>
        simp only [hL]
        constructor
        · simp [gameSummary, lookup_updateEntry_self, hg]
        · simp [userLobby, lookup_updateEntry_self, hg]
      | some w =>
        simp only [hL]
        constructor
        · simp [gameSummary, lookup_updateEntry_self, hg]
        · simp [userLobby, lookup_updateEntry_self, hg]

/-- Witness for the amended C8 theorem: all four clauses exercised at
concrete states, including a successful creation in the guild branch. -/
theorem creategame_requires_session_and_creates_witness :
    (lookup emptySt.kaillera_users 7 = none
     ∧ creategame emptySt 7 ['R'] false 0 = (emptySt, [], some CmdErr.mustAuthenticate))
    ∧ (lookup ownerMemberSt.kaillera_users 1 = some (memberOfGame1 1)
       ∧ (memberOfGame1 1).game.isSome = true
       ∧ creategame ownerMemberSt 1 ['R'] false 0
           = (ownerMemberSt, [], some CmdErr.alreadyInGame))
    ∧ (lookup notAuthCreatorSt.kaillera_users 7 = some pendingCreator
       ∧ ((['X'] : PyStr).isEmpty || !(pendingCreator.game_list.contains ['X'])) = true
       ∧ creategame notAuthCreatorSt 7 ['X'] false 0
           = (notAuthCreatorSt, [], some CmdErr.invalidRomName))
    ∧ (gameSummary (creategame notAuthCreatorSt 7 ['R'] true 9).1 7
         = some ([7], 7, GameStatus.IDLE, ['R'])
       ∧ userLobby (creategame notAuthCreatorSt 7 ['R'] true 9).1 7 = some (some 7)) := by
  refine ⟨⟨by decide, ?_⟩, ⟨by decide, by decide, ?_⟩, ⟨by decide, by decide, ?_⟩, ?_⟩
  · exact (creategame_requires_session_and_creates emptySt 7 ['R'] false 0).1 (by decide)
  · exact (creategame_requires_session_and_creates ownerMemberSt 1 ['R'] false 0).2.1
      (memberOfGame1 1) (by decide) (by decide)
  · exact (creategame_requires_session_and_creates notAuthCreatorSt 7 ['X'] false 0).2.2.1
      pendingCreator (by decide) (by decide) (by decide)
  · exact (creategame_requires_session_and_creates notAuthCreatorSt 7 ['R'] true 9).2.2.2
      pendingCreator (by decide) (by decide) (by decide)

end KailleraPlus
